import Mathlib

/-!
# Verification of the SMPL-X render pose/interpolation engine

Shallow embedding of the pose-parameter mapping and interpolation engine of
the SMPL-X-render repository, together with theorems settling the frozen
claims about it.

The embedded code:
* `src/animation_worker.py` — `AnimationWorker.run` (the frame sequencer:
  interpolation functions, per-frame pose assembly with its inline
  `axis_map`, progress/finished/error signalling) and `_render_frame`
  (which catches every exception internally);
* `src/main_window.py` — `HumanAnimationSystem._update_joint` (the
  interactive pose-vector codec, using `JOINT_AXIS_MAP`);
* `src/constants.py` / `src/config.py` — `JOINT_AXIS_MAP`;
* `src/ui.py` — `HumanAnimationSystem._generate_animation` (request
  validation before the worker is started).

Machine reals are modelled by `ℚ` (exact arithmetic); `np.pi` is embedded
as the exact rational value of the IEEE-754 double `np.pi`.
-/

namespace SMPLX

/-- A pose-parameter vector: `torch.zeros(1, 156)` indexed by its slot.
Modelled as a total map from integer slot indices to values; the program
only ever reads slots `0..155`. -/
def Pose : Type := ℤ → ℚ

/-- `torch.zeros(1, 156)` — the all-zero pose vector. -/
def zeroPose : Pose := fun _ => 0

/-- A single slot assignment `pose[0, i] = v`. -/
def setSlot (p : Pose) (i : ℤ) (v : ℚ) : Pose := fun s => if s = i then v else p s

/-- A joint identifier as it appears in `joint_configs`: the string
sentinel `'global'` (`GLOBAL_ROTATION`) or a Python integer joint id. -/
inductive JointIdx where
  | globalJoint : JointIdx
  | numbered : ℤ → JointIdx
deriving DecidableEq

/-- The inline `axis_map` dictionary of `AnimationWorker.run`
(`src/animation_worker.py` lines 124-129), read with `.get(idx, 0)`:
`{0: 0, 1: 1, 2: 2, 4: 2, 5: 2, 7: 2, 8: 2, 10: 2, 11: 2,
  3: 1, 6: 1, 9: 1, 12: 1, 15: 1,
  13: 0, 14: 0, 16: 0, 17: 0, 18: 0, 19: 0, 20: 0, 21: 0}`. -/
def workerAxisGet (i : ℤ) : ℤ :=
  if i = 0 then 0
  else if i = 1 then 1
  else if i = 2 then 2
  else if i = 4 then 2
  else if i = 5 then 2
  else if i = 7 then 2
  else if i = 8 then 2
  else if i = 10 then 2
  else if i = 11 then 2
  else if i = 3 then 1
  else if i = 6 then 1
  else if i = 9 then 1
  else if i = 12 then 1
  else if i = 15 then 1
  else if i = 13 then 0
  else if i = 14 then 0
  else if i = 16 then 0
  else if i = 17 then 0
  else if i = 18 then 0
  else if i = 19 then 0
  else if i = 20 then 0
  else if i = 21 then 0
  else 0

/-- The integer-keyed part of `JOINT_AXIS_MAP` of `src/constants.py`
(identical in `src/config.py` and `src/test.py`), read with `.get(idx, 0)`:
`{1: 2, 2: 2, 4: 2, 5: 2, 7: 2, 8: 2, 10: 2, 11: 2,
  3: 1, 6: 1, 9: 1, 12: 1, 15: 1,
  13: 0, 14: 0, 16: 0, 17: 0, 18: 0, 19: 0, 20: 0, 21: 0}`. -/
def JOINT_AXIS_MAP_get (i : ℤ) : ℤ :=
  if i = 1 then 2
  else if i = 2 then 2
  else if i = 4 then 2
  else if i = 5 then 2
  else if i = 7 then 2
  else if i = 8 then 2
  else if i = 10 then 2
  else if i = 11 then 2
  else if i = 3 then 1
  else if i = 6 then 1
  else if i = 9 then 1
  else if i = 12 then 1
  else if i = 15 then 1
  else if i = 13 then 0
  else if i = 14 then 0
  else if i = 16 then 0
  else if i = 17 then 0
  else if i = 18 then 0
  else if i = 19 then 0
  else if i = 20 then 0
  else if i = 21 then 0
  else 0

/-- `JOINT_AXIS_MAP['global'] = 1` (`src/constants.py` line 49). -/
def JOINT_AXIS_MAP_global : ℤ := 1

/-- First pose-vector slot of a joint: `0` for the global sentinel
(slots 0-2), `3 + idx * 3` (`pose_start_idx`) for a numbered joint. -/
def jointBase : JointIdx → ℤ
  | JointIdx.globalJoint => 0
  | JointIdx.numbered i => 3 + i * 3

/-- Axis used by the animation worker for a joint: the global branch
hard-codes slot `1`; numbered joints use the inline `axis_map`. -/
def workerAxisOf : JointIdx → ℤ
  | JointIdx.globalJoint => 1
  | JointIdx.numbered i => workerAxisGet i

/-- Axis used by `main_window._update_joint`: `JOINT_AXIS_MAP[idx]` for
the global sentinel, `JOINT_AXIS_MAP.get(idx, 0)` for numbered joints. -/
def mwAxisOf : JointIdx → ℤ
  | JointIdx.globalJoint => JOINT_AXIS_MAP_global
  | JointIdx.numbered i => JOINT_AXIS_MAP_get i

/-- The per-joint pose write of `AnimationWorker.run`
(`src/animation_worker.py` lines 116-134):

```
if idx == 'global':
    current_pose[0, 0] = 0.0
    current_pose[0, 1] = current_rad
    current_pose[0, 2] = 0.0
else:
    pose_start_idx = 3 + idx * 3
    axis = axis_map.get(idx, 0)
    if 0 <= pose_start_idx + axis < 156:
        current_pose[0, pose_start_idx] = 0.0
        current_pose[0, pose_start_idx + 1] = 0.0
        current_pose[0, pose_start_idx + 2] = 0.0
        current_pose[0, pose_start_idx + axis] = current_rad
```
-/
def writeJointWorker (p : Pose) (j : JointIdx) (rad : ℚ) : Pose :=
  match j with
  | JointIdx.globalJoint => setSlot (setSlot (setSlot p 0 0) 1 rad) 2 0
  | JointIdx.numbered i =>
      let base := 3 + i * 3
      let axis := workerAxisGet i
      if 0 ≤ base + axis ∧ base + axis < 156 then
        setSlot (setSlot (setSlot (setSlot p base 0) (base + 1) 0) (base + 2) 0)
          (base + axis) rad
      else p

/-- The per-joint pose write of `HumanAnimationSystem._update_joint`
(`src/main_window.py` lines 340-352):

```
if idx == GLOBAL_ROTATION:
    axis = JOINT_AXIS_MAP[idx]
    self.pose_params[0, axis] = rad
    self.pose_params[0, 0 if axis != 0 else 1] = 0.0
    self.pose_params[0, 2 if axis != 2 else 1] = 0.0
else:
    pose_start_idx = 3 + idx * 3
    axis = JOINT_AXIS_MAP.get(idx, 0)
    if 0 <= pose_start_idx + axis < 156:
        self.pose_params[0, pose_start_idx] = 0.0
        self.pose_params[0, pose_start_idx + 1] = 0.0
        self.pose_params[0, pose_start_idx + 2] = 0.0
        self.pose_params[0, pose_start_idx + axis] = rad
```
-/
def updateJointMW (p : Pose) (j : JointIdx) (rad : ℚ) : Pose :=
  match j with
  | JointIdx.globalJoint =>
      let axis := JOINT_AXIS_MAP_global
      setSlot (setSlot (setSlot p axis rad) (if axis ≠ 0 then 0 else 1) 0)
        (if axis ≠ 2 then 2 else 1) 0
  | JointIdx.numbered i =>
      let base := 3 + i * 3
      let axis := JOINT_AXIS_MAP_get i
      if 0 ≤ base + axis ∧ base + axis < 156 then
        setSlot (setSlot (setSlot (setSlot p base 0) (base + 1) 0) (base + 2) 0)
          (base + axis) rad
      else p

/-- The exact rational value of the IEEE-754 double `np.pi`. -/
def np_pi : ℚ := 884279719003555 / 281474976710656

/-- The unique polynomial of degree at most two through the three nodes
`(0, s)`, `(1/2, (s+e)/2)`, `(1, e)` in Lagrange form.  This is what
`scipy.interpolate.interp1d(t_points, v_points, kind='quadratic')`
evaluates when given exactly these three data points
(`src/animation_worker.py` lines 77-83). -/
def quadInterp (s e t : ℚ) : ℚ :=
  let m := (s + e) / 2
  s * ((t - 1/2) * (t - 1)) / ((0 - 1/2) * (0 - 1))
    + m * ((t - 0) * (t - 1)) / ((1/2 - 0) * (1/2 - 1))
    + e * ((t - 0) * (t - 1/2)) / ((1 - 0) * (1 - 1/2))

/-- `smooth_interpolate` as defined in `AnimationWorker.run` when
`self.interpolation == "smooth"` (`src/animation_worker.py` lines 78-83):

```
def smooth_interpolate(start, end, t):
    if abs(end - start) < 0.01:
        return start
    v_points = np.array([start, (start + end) / 2, end])
    f = interp1d(t_points, v_points, kind='quadratic')
    return float(f(t))
```
-/
def smooth_interpolate (s e t : ℚ) : ℚ :=
  if |e - s| < 1/100 then s else quadInterp s e t

/-- The `self.interpolation` mode string: `"smooth"` or anything else
(the else-branch is linear interpolation). -/
inductive Mode where
  | linear : Mode
  | smooth : Mode
deriving DecidableEq

/-- Per-frame shape coefficient (`src/animation_worker.py` lines 94-97):
`smooth_interpolate(shape_start, shape_end, t)` in smooth mode, else
`shape_start + (shape_end - shape_start) * t`. -/
def computeShape (mode : Mode) (shape_start shape_end t : ℚ) : ℚ :=
  match mode with
  | Mode.smooth => smooth_interpolate shape_start shape_end t
  | Mode.linear => shape_start + (shape_end - shape_start) * t

/-- Per-frame joint angle in radians (`src/animation_worker.py`
lines 107-114): degree endpoints are converted by `* np.pi / 180` and
then interpolated. -/
def computeRad (mode : Mode) (start_val end_val t : ℚ) : ℚ :=
  match mode with
  | Mode.smooth =>
      smooth_interpolate (start_val * np_pi / 180) (end_val * np_pi / 180) t
  | Mode.linear =>
      start_val * np_pi / 180 + (end_val - start_val) * np_pi / 180 * t

/-- The interpolation parameter of frame `i`
(`src/animation_worker.py` line 91):
`t = frame_idx / max(1, total_frames - 1) if total_frames > 1 else 1.0`. -/
def frameT (N : ℤ) (i : ℕ) : ℚ :=
  if N > 1 then (i : ℚ) / ((max 1 (N - 1) : ℤ) : ℚ) else 1

/-- One entry of `joint_configs`:
`{'idx': idx, 'start_val': start_box.value(), 'end_val': end_box.value()}`. -/
structure JointTrack where
  idx : JointIdx
  start_val : ℚ
  end_val : ℚ

/-- The pose vector assembled for one frame
(`src/animation_worker.py` lines 100-134): starting from
`torch.zeros(1, 156)`, each entry of `joint_configs` is written in order
with its interpolated angle. -/
def framePose (mode : Mode) (tracks : List JointTrack) (t : ℚ) : Pose :=
  tracks.foldl
    (fun p tr => writeJointWorker p tr.idx (computeRad mode tr.start_val tr.end_val t))
    zeroPose

/-- Python `int(...)` applied to a rational: truncation toward zero. -/
def pyInt (q : ℚ) : ℤ := if q < 0 then -⌊-q⌋ else ⌊q⌋

/-- The percentage emitted before rendering frame `i`
(`src/animation_worker.py` line 140):
`progress = int((frame_idx / total_frames) * 100)`. -/
def workerProgress (N : ℤ) (i : ℕ) : ℤ := pyInt (((i : ℚ) / (N : ℚ)) * 100)

/-- One emission on the worker's Qt signal channels:
`progress_update.emit(pct, msg)`, `finished_signal.emit(path)` or
`error_signal.emit(msg)`. -/
inductive Event where
  | progress : ℤ → String → Event
  | finished : String → Event
  | errorSignal : String → Event
deriving DecidableEq

/-- Whether an event is an `error_signal` emission. -/
def Event.isErrorB : Event → Bool
  | Event.errorSignal _ => true
  | _ => false

/-- The observable outcome of one `AnimationWorker.run`: the ordered list
of emitted signals, the indices of frames whose image file was written,
and the precomputed `(shape, pose)` pair of every frame. -/
structure Trace where
  events : List Event
  written : List ℕ
  frameParams : List (ℚ × Pose)

/-- `AnimationWorker.run` (`src/animation_worker.py` lines 64-151).

The whole body runs in one `try`.  `Path(output_path).mkdir(...)` is the
external filesystem collaborator and the only statement in the body that
can raise: `mkdirErr = some msg` models that exception, which the
`except` clause turns into the single emission
`error_signal.emit("渲染失败: " + str(e))`.

After `progress_update.emit(0, "初始化...")` the run precomputes
`frame_params` for frames `0..total_frames-1` and then, per frame, emits
`int((frame_idx / total_frames) * 100)` and calls `_render_frame`.
`_render_frame` (lines 153-232) wraps its entire body in its own
`try/except` that prints and swallows any exception, so it never raises
into `run`; `renderRaises i` models an exception during frame `i`'s
image production (in which case no file is saved for that frame).
Finally the run emits `progress_update.emit(100, "完成!")` and
`finished_signal.emit(self.output_path)`.

The loop interleaves the per-frame progress emission with the render of
the same frame; `events` and `written` record the two observation
channels in their respective order. -/
def runWorker (frames : ℤ) (mode : Mode) (shape_start shape_end : ℚ)
    (tracks : List JointTrack) (outputPath : String)
    (mkdirErr : Option String) (renderRaises : ℕ → Bool) : Trace :=
  match mkdirErr with
  | some msg =>
      { events := [Event.errorSignal ("渲染失败: " ++ msg)], written := [], frameParams := [] }
  | none =>
      { events := Event.progress 0 ("初始化...") ::
          ((List.range frames.toNat).map fun i =>
            Event.progress (workerProgress frames i) (s!"渲染帧 {i + 1}/{frames}"))
          ++ [Event.progress 100 ("完成!"), Event.finished outputPath],
        written := (List.range frames.toNat).filter fun i => !renderRaises i,
        frameParams := (List.range frames.toNat).map fun i =>
          (computeShape mode shape_start shape_end (frameT frames i),
           framePose mode tracks (frameT frames i)) }

/-- The percent argument of a `progress_update` emission, if any. -/
def pctOf : Event → Option ℤ
  | Event.progress pct _ => some pct
  | _ => none

/-- The percent arguments of the `progress_update` emissions of a trace,
in emission order. -/
def progressPcts (es : List Event) : List ℤ := es.filterMap pctOf

/-- Outcome of `HumanAnimationSystem._generate_animation` in `src/ui.py`:
a warning message box without starting any worker, a cancelled request,
or a started worker run. -/
inductive GenResult where
  | warnNoModel : GenResult
  | warnFrameCount : GenResult
  | cancelNoJoints : GenResult
  | started : String → Trace → GenResult
deriving Nonempty

/-- `HumanAnimationSystem._generate_animation` (`src/ui.py` lines
901-976):

```
if body_model is None:
    QMessageBox.warning(self, "警告", "请先加载SMPLX模型!"); return
output_path = self.output_dir_edit.text().strip()
if not output_path: output_path = "./output_frames"
frames = self.frame_count.value()
if frames < 1:
    QMessageBox.warning(self, "警告", "帧数必须大于0!"); return
...
if len(joint_configs) == 0:
    reply = QMessageBox.question(...)
    if reply == QMessageBox.No: return
...
self.animation_thread = AnimationWorker(frames, output_path, interpolation=interpolation)
...
self.animation_thread.start()
```

`confirmShapeOnly` models the user's reply to the shape-only question. -/
def generate_animation (modelLoaded : Bool) (outputDirText : String) (frames : ℤ)
    (shape_start shape_end : ℚ) (tracks : List JointTrack)
    (confirmShapeOnly : Bool) (mode : Mode)
    (mkdirErr : Option String) (renderRaises : ℕ → Bool) : GenResult :=
  if modelLoaded = false then GenResult.warnNoModel
  else
    let out := if outputDirText.trim = "" then "./output_frames" else outputDirText.trim
    if frames < 1 then GenResult.warnFrameCount
    else if tracks.length = 0 ∧ confirmShapeOnly = false then GenResult.cancelNoJoints
    else GenResult.started out
      (runWorker frames mode shape_start shape_end tracks out mkdirErr renderRaises)

/-- A sequence of joint writes applied in order with the write
function `w`. -/
def writeSeq (w : Pose → JointIdx → ℚ → Pose) (p : Pose)
    (l : List (JointIdx × ℚ)) : Pose :=
  l.foldl (fun q pr => w q pr.1 pr.2) p

/-- Joint identifiers that the program's control surfaces actually pass
to the codecs: the global sentinel, or a numbered id drawn from
`SMPLX_JOINTS` (all of which are non-negative). -/
def validId : JointIdx → Prop
  | JointIdx.globalJoint => True
  | JointIdx.numbered i => 0 ≤ i

/-- Membership of slot `s` in joint `j`'s three-slot range:
slots 0-2 for the global sentinel, `3 + 3*j .. 3 + 3*j + 2` for a
numbered joint `j`. -/
def jointSlots (j : JointIdx) (s : ℤ) : Prop :=
  jointBase j ≤ s ∧ s ≤ jointBase j + 2

/-- Modelled from the spec: the single axis convention the claim fixes —
hips, knees, ankles and feet (ids 1, 2, 4, 5, 7, 8, 10, 11) rotate about
Z (+2); spine, neck and head (ids 3, 6, 9, 12, 15) about Y (+1);
collars, shoulders, elbows and wrists (ids 13, 14, 16-21) about X (+0);
any id absent from the table defaults to X.  Written to compare against
the source's axis tables. -/
def claimAxisConvention (i : ℤ) : ℤ :=
  if i = 1 ∨ i = 2 ∨ i = 4 ∨ i = 5 ∨ i = 7 ∨ i = 8 ∨ i = 10 ∨ i = 11 then 2
  else if i = 3 ∨ i = 6 ∨ i = 9 ∨ i = 12 ∨ i = 15 then 1
  else if i = 13 ∨ i = 14 ∨ (16 ≤ i ∧ i ≤ 21) then 0
  else 0

/-! ## Helper lemmas -/

/-- The three collinear control points make the quadratic interpolant a
straight line: `quadInterp` is exactly linear interpolation. -/
lemma quadInterp_eq_linear (s e t : ℚ) : quadInterp s e t = s + (e - s) * t := by
  unfold quadInterp
  ring

/-- Away from the degenerate threshold, `smooth_interpolate` takes the
quadratic branch, which is linear interpolation. -/
lemma smooth_interpolate_of_ge (s e t : ℚ) (h : 1/100 ≤ |e - s|) :
    smooth_interpolate s e t = s + (e - s) * t := by
  unfold smooth_interpolate
  rw [if_neg (not_lt.mpr h), quadInterp_eq_linear]

/-- Both integer-keyed axis tables only ever return an axis in
`{0, 1, 2}`. -/
lemma workerAxisGet_bounds (i : ℤ) : 0 ≤ workerAxisGet i ∧ workerAxisGet i ≤ 2 := by
  by_cases h : 0 ≤ i ∧ i ≤ 21
  · obtain ⟨h0, h1⟩ := h
    interval_cases i <;> decide
  · rw [Decidable.not_and_iff_or_not, not_le, not_le] at h
    simp only [workerAxisGet, show i ≠ 0 from by omega, show i ≠ 1 from by omega,
      show i ≠ 2 from by omega, show i ≠ 3 from by omega, show i ≠ 4 from by omega,
      show i ≠ 5 from by omega, show i ≠ 6 from by omega, show i ≠ 7 from by omega,
      show i ≠ 8 from by omega, show i ≠ 9 from by omega, show i ≠ 10 from by omega,
      show i ≠ 11 from by omega, show i ≠ 12 from by omega, show i ≠ 13 from by omega,
      show i ≠ 14 from by omega, show i ≠ 15 from by omega, show i ≠ 16 from by omega,
      show i ≠ 17 from by omega, show i ≠ 18 from by omega, show i ≠ 19 from by omega,
      show i ≠ 20 from by omega, show i ≠ 21 from by omega, if_false, ite_false]
    omega

/-- `JOINT_AXIS_MAP.get(idx, 0)` only ever returns an axis in
`{0, 1, 2}`. -/
lemma JOINT_AXIS_MAP_get_bounds (i : ℤ) :
    0 ≤ JOINT_AXIS_MAP_get i ∧ JOINT_AXIS_MAP_get i ≤ 2 := by
  by_cases h : 0 ≤ i ∧ i ≤ 21
  · obtain ⟨h0, h1⟩ := h
    interval_cases i <;> decide
  · rw [Decidable.not_and_iff_or_not, not_le, not_le] at h
    simp only [JOINT_AXIS_MAP_get, show i ≠ 1 from by omega, show i ≠ 2 from by omega,
      show i ≠ 3 from by omega, show i ≠ 4 from by omega, show i ≠ 5 from by omega,
      show i ≠ 6 from by omega, show i ≠ 7 from by omega, show i ≠ 8 from by omega,
      show i ≠ 9 from by omega, show i ≠ 10 from by omega, show i ≠ 11 from by omega,
      show i ≠ 12 from by omega, show i ≠ 13 from by omega, show i ≠ 14 from by omega,
      show i ≠ 15 from by omega, show i ≠ 16 from by omega, show i ≠ 17 from by omega,
      show i ≠ 18 from by omega, show i ≠ 19 from by omega, show i ≠ 20 from by omega,
      show i ≠ 21 from by omega, if_false, ite_false]
    omega

/-- A write never changes a slot outside its joint's own three-slot
range `jointBase j .. jointBase j + 2` (worker codec). -/
lemma writeJointWorker_outside (p : Pose) (j : JointIdx) (a : ℚ) (s : ℤ)
    (hs : s < jointBase j ∨ jointBase j + 2 < s) :
    writeJointWorker p j a s = p s := by
  cases j with
  | globalJoint =>
      simp only [jointBase] at hs
      simp only [writeJointWorker, setSlot]
      rw [if_neg (by omega), if_neg (by omega), if_neg (by omega)]
  | numbered i =>
      simp only [jointBase] at hs
      have hb := workerAxisGet_bounds i
      simp only [writeJointWorker]
      split
      · simp only [setSlot]
        rw [if_neg (by omega), if_neg (by omega), if_neg (by omega), if_neg (by omega)]
      · rfl

/-- A write never changes a slot outside its joint's own three-slot
range (main-window codec). -/
lemma updateJointMW_outside (p : Pose) (j : JointIdx) (a : ℚ) (s : ℤ)
    (hs : s < jointBase j ∨ jointBase j + 2 < s) :
    updateJointMW p j a s = p s := by
  cases j with
  | globalJoint =>
      simp only [jointBase] at hs
      simp only [updateJointMW, JOINT_AXIS_MAP_global, setSlot]
      rw [if_neg (by omega), if_neg (by omega), if_neg (by omega)]
  | numbered i =>
      simp only [jointBase] at hs
      have hb := JOINT_AXIS_MAP_get_bounds i
      simp only [updateJointMW]
      split
      · simp only [setSlot]
        rw [if_neg (by omega), if_neg (by omega), if_neg (by omega), if_neg (by omega)]
      · rfl

/-- The value a write leaves in a slot depends on the incoming pose only
through that same slot (worker codec). -/
lemma writeJointWorker_pointwise (p q : Pose) (j : JointIdx) (a : ℚ) (s : ℤ)
    (h : p s = q s) :
    writeJointWorker p j a s = writeJointWorker q j a s := by
  cases j with
  | globalJoint =>
      simp only [writeJointWorker, setSlot]
      split_ifs <;> first | rfl | exact h
  | numbered i =>
      simp only [writeJointWorker]
      split_ifs with hg
      · simp only [setSlot]
        split_ifs <;> first | rfl | exact h
      · exact h

/-- The value a write leaves in a slot depends on the incoming pose only
through that same slot (main-window codec). -/
lemma updateJointMW_pointwise (p q : Pose) (j : JointIdx) (a : ℚ) (s : ℤ)
    (h : p s = q s) :
    updateJointMW p j a s = updateJointMW q j a s := by
  cases j with
  | globalJoint =>
      simp only [updateJointMW, setSlot]
      split_ifs <;> first | rfl | exact h
  | numbered i =>
      simp only [updateJointMW]
      split_ifs with hg
      · simp only [setSlot]
        split_ifs <;> first | rfl | exact h
      · exact h

/-- `writeSeq` distributes over list append. -/
lemma writeSeq_append (w : Pose → JointIdx → ℚ → Pose) (p : Pose)
    (l1 l2 : List (JointIdx × ℚ)) :
    writeSeq w p (l1 ++ l2) = writeSeq w (writeSeq w p l1) l2 := by
  simp [writeSeq, List.foldl_append]

/-- `writeSeq` on a cons. -/
lemma writeSeq_cons (w : Pose → JointIdx → ℚ → Pose) (p : Pose)
    (x : JointIdx × ℚ) (l : List (JointIdx × ℚ)) :
    writeSeq w p (x :: l) = writeSeq w (w p x.1 x.2) l := rfl

/-- Poses that agree on a slot still agree on it after any common
sequence of writes, provided each single write is pointwise. -/
lemma writeSeq_agree (w : Pose → JointIdx → ℚ → Pose)
    (hw : ∀ (p q : Pose) (j : JointIdx) (a : ℚ) (s : ℤ), p s = q s → w p j a s = w q j a s)
    (l : List (JointIdx × ℚ)) :
    ∀ (p q : Pose) (s : ℤ), p s = q s → writeSeq w p l s = writeSeq w q l s := by
  induction l with
  | nil => intro p q s h; exact h
  | cons x xs ih => intro p q s h; exact ih _ _ _ (hw _ _ _ _ _ h)

/-- Three-slot ranges of distinct program joints are disjoint: any slot
of `j2` lies strictly outside `j1`'s range. -/
lemma slots_disjoint (j1 j2 : JointIdx) (s : ℤ) (h1 : validId j1) (h2 : validId j2)
    (hne : j1 ≠ j2) (hs : jointSlots j2 s) :
    s < jointBase j1 ∨ jointBase j1 + 2 < s := by
  cases j1 with
  | globalJoint =>
      cases j2 with
      | globalJoint => exact absurd rfl hne
      | numbered i2 =>
          simp only [validId] at h2
          simp only [jointSlots, jointBase] at hs ⊢
          omega
  | numbered i1 =>
      cases j2 with
      | globalJoint =>
          simp only [validId] at h1
          simp only [jointSlots, jointBase] at hs ⊢
          omega
      | numbered i2 =>
          have hii : i1 ≠ i2 := fun h => hne (by rw [h])
          simp only [validId] at h1 h2
          simp only [jointSlots, jointBase] at hs ⊢
          omega

/-- An element of `getLast?` is an element of the list. -/
lemma mem_of_mem_getLastQ {α : Type} {l : List α} {x : α} (h : x ∈ l.getLast?) : x ∈ l := by
  rcases List.mem_getLast?_eq_getLast h with ⟨hne, rfl⟩
  exact List.getLast_mem hne

/-- `filterMap pctOf` over a list of progress events extracts their
percentages. -/
lemma filterMap_pctOf_progress (f : ℕ → ℤ) (g : ℕ → String) (l : List ℕ) :
    (l.map fun i => Event.progress (f i) (g i)).filterMap pctOf = l.map f := by
  induction l with
  | nil => rfl
  | cons x xs ih => simp [pctOf, ih]

/-- The event stream of a successful `run`, decomposed with the terminal
`finished_signal` split off. -/
lemma workerEvents_decomp (N : ℤ) (mode : Mode) (s e : ℚ) (tracks : List JointTrack)
    (out : String) (oracle : ℕ → Bool) :
    (runWorker N mode s e tracks out none oracle).events
      = (Event.progress 0 ("初始化...") ::
          ((List.range N.toNat).map fun i =>
            Event.progress (workerProgress N i) (s!"渲染帧 {i + 1}/{N}"))
          ++ [Event.progress 100 ("完成!")]) ++ [Event.finished out] := by
  simp [runWorker]

/-- The percentage stream of a successful `run`: the initial `0`, one
value per frame, and the final `100`. -/
lemma progressPcts_run (N : ℤ) (mode : Mode) (s e : ℚ) (tracks : List JointTrack)
    (out : String) (oracle : ℕ → Bool) :
    progressPcts (runWorker N mode s e tracks out none oracle).events
      = 0 :: (List.range N.toNat).map (workerProgress N) ++ [100] := by
  simp only [runWorker, progressPcts, List.filterMap_cons, List.filterMap_append,
    filterMap_pctOf_progress]
  rfl

/-- `pyInt` agrees with the floor on non-negative arguments. -/
lemma pyInt_of_nonneg (q : ℚ) (h : 0 ≤ q) : pyInt q = ⌊q⌋ := if_neg (not_lt.mpr h)

/-- Per-frame percentages are non-negative. -/
lemma workerProgress_nonneg (N : ℤ) (hN : 1 ≤ N) (i : ℕ) : 0 ≤ workerProgress N i := by
  have hN' : (0 : ℚ) < (N : ℚ) := by exact_mod_cast (by omega : (0 : ℤ) < N)
  have hq : (0 : ℚ) ≤ (i : ℚ) / (N : ℚ) * 100 := by positivity
  unfold workerProgress
  rw [pyInt_of_nonneg _ hq]
  exact Int.floor_nonneg.mpr hq

/-- Per-frame percentages stay strictly below `100`. -/
lemma workerProgress_lt (N : ℤ) (hN : 1 ≤ N) (i : ℕ) (hi : (i : ℤ) < N) :
    workerProgress N i < 100 := by
  have hN' : (0 : ℚ) < (N : ℚ) := by exact_mod_cast (by omega : (0 : ℤ) < N)
  have hq0 : (0 : ℚ) ≤ (i : ℚ) / (N : ℚ) * 100 := by positivity
  have h1 : (i : ℚ) / (N : ℚ) < 1 := (div_lt_one hN').mpr (by exact_mod_cast hi)
  have hq : (i : ℚ) / (N : ℚ) * 100 < 100 := by nlinarith
  unfold workerProgress
  rw [pyInt_of_nonneg _ hq0]
  exact Int.floor_lt.mpr (by push_cast; linarith)

/-- Per-frame percentages are non-decreasing in the frame index. -/
lemma workerProgress_mono (N : ℤ) (hN : 1 ≤ N) (i : ℕ) :
    workerProgress N i ≤ workerProgress N (i + 1) := by
  have hN' : (0 : ℚ) < (N : ℚ) := by exact_mod_cast (by omega : (0 : ℤ) < N)
  have hq0 : (0 : ℚ) ≤ (i : ℚ) / (N : ℚ) * 100 := by positivity
  have hq1 : (0 : ℚ) ≤ ((i + 1 : ℕ) : ℚ) / (N : ℚ) * 100 := by positivity
  unfold workerProgress
  rw [pyInt_of_nonneg _ hq0, pyInt_of_nonneg _ hq1]
  apply Int.floor_le_floor
  have hle : (i : ℚ) ≤ ((i + 1 : ℕ) : ℚ) := by push_cast; linarith
  have := (div_le_div_iff_of_pos_right hN').mpr hle
  nlinarith

/-! ## Claim theorems -/

/-- C1: full-overwrite invariant — for every joint (the global sentinel
or a numbered id whose computed offset is in range), every pre-existing
pose contents and every angle `a`, a single joint write leaves the
joint's axis slot equal to `a` and its other two slots equal to `0`,
in both the worker codec and the main-window codec; the result is
independent of the prior contents of the three slots. -/
theorem full_overwrite (p : Pose) (a : ℚ) (j : JointIdx) (k : ℤ)
    (hk0 : 0 ≤ k) (hk2 : k ≤ 2) :
    ((0 ≤ jointBase j + workerAxisOf j ∧ jointBase j + workerAxisOf j < 156) →
      writeJointWorker p j a (jointBase j + k) =
        if k = workerAxisOf j then a else 0) ∧
    ((0 ≤ jointBase j + mwAxisOf j ∧ jointBase j + mwAxisOf j < 156) →
      updateJointMW p j a (jointBase j + k) =
        if k = mwAxisOf j then a else 0) := by
  constructor
  · intro _
    cases j with
    | globalJoint =>
        simp only [jointBase, workerAxisOf, writeJointWorker, setSlot]
        split_ifs <;> first | rfl | (exfalso; omega)
    | numbered i =>
        simp only [jointBase, workerAxisOf] at *
        simp only [writeJointWorker]
        rw [if_pos (by assumption)]
        simp only [setSlot]
        split_ifs <;> first | rfl | (exfalso; omega)
  · intro _
    cases j with
    | globalJoint =>
        simp only [jointBase, mwAxisOf, JOINT_AXIS_MAP_global, updateJointMW, setSlot]
        split_ifs <;> first | rfl | (exfalso; omega)
    | numbered i =>
        simp only [jointBase, mwAxisOf] at *
        simp only [updateJointMW]
        rw [if_pos (by assumption)]
        simp only [setSlot]
        split_ifs <;> first | rfl | (exfalso; omega)

/-- Witness for C1: joint id 16 (`left_shoulder`), a pose whose slots all
hold the stale value `5`, angle `7`, reading back slot offset `k = 0`
(the X axis both tables assign to id 16). -/
theorem full_overwrite_witness :
    (writeJointWorker (fun _ => 5) (JointIdx.numbered 16) 7
        (jointBase (JointIdx.numbered 16) + 0) =
      if (0 : ℤ) = workerAxisOf (JointIdx.numbered 16) then (7 : ℚ) else 0) ∧
    (updateJointMW (fun _ => 5) (JointIdx.numbered 16) 7
        (jointBase (JointIdx.numbered 16) + 0) =
      if (0 : ℤ) = mwAxisOf (JointIdx.numbered 16) then (7 : ℚ) else 0) :=
  ⟨(full_overwrite (fun _ => 5) 7 (JointIdx.numbered 16) 0 (by norm_num)
      (by norm_num)).1 (by decide),
   (full_overwrite (fun _ => 5) 7 (JointIdx.numbered 16) 0 (by norm_num)
      (by norm_num)).2 (by decide)⟩

/-- C2: zero-contamination — for distinct program joints `j1 ≠ j2`
(the global sentinel, or numbered ids as supplied by the program's
controls) and any sequence of joint writes, inserting a write of `j1`
anywhere in the sequence leaves every slot of `j2`'s three-slot range
with exactly the value it would have had without that write; a single
write changes nothing outside its own joint's three slots.  Holds for
both the worker codec and the main-window codec. -/
theorem zero_contamination (ws1 ws2 : List (JointIdx × ℚ)) (p : Pose)
    (j1 j2 : JointIdx) (a : ℚ) (s : ℤ)
    (h1 : validId j1) (h2 : validId j2) (hne : j1 ≠ j2) (hs : jointSlots j2 s) :
    writeSeq writeJointWorker p (ws1 ++ (j1, a) :: ws2) s
        = writeSeq writeJointWorker p (ws1 ++ ws2) s ∧
    writeSeq updateJointMW p (ws1 ++ (j1, a) :: ws2) s
        = writeSeq updateJointMW p (ws1 ++ ws2) s ∧
    writeJointWorker p j1 a s = p s ∧
    updateJointMW p j1 a s = p s := by
  have hd := slots_disjoint j1 j2 s h1 h2 hne hs
  refine ⟨?_, ?_, writeJointWorker_outside p j1 a s hd, updateJointMW_outside p j1 a s hd⟩
  · rw [writeSeq_append, writeSeq_append, writeSeq_cons]
    exact writeSeq_agree writeJointWorker writeJointWorker_pointwise ws2 _ _ s
      (writeJointWorker_outside _ j1 a s hd)
  · rw [writeSeq_append, writeSeq_append, writeSeq_cons]
    exact writeSeq_agree updateJointMW updateJointMW_pointwise ws2 _ _ s
      (updateJointMW_outside _ j1 a s hd)

/-- Witness for C2: write joint id 3, then joint id 0, over a pose whose
slots hold `2`; reading the global sentinel's slot 1 is unaffected. -/
theorem zero_contamination_witness :
    writeSeq writeJointWorker (fun _ => 2)
        ([(JointIdx.numbered 3, 1)] ++ (JointIdx.numbered 0, 5) :: []) 1
      = writeSeq writeJointWorker (fun _ => 2) ([(JointIdx.numbered 3, 1)] ++ []) 1 ∧
    writeSeq updateJointMW (fun _ => 2)
        ([(JointIdx.numbered 3, 1)] ++ (JointIdx.numbered 0, 5) :: []) 1
      = writeSeq updateJointMW (fun _ => 2) ([(JointIdx.numbered 3, 1)] ++ []) 1 ∧
    writeJointWorker (fun _ => 2) (JointIdx.numbered 0) 5 1 = (fun _ => (2 : ℚ)) 1 ∧
    updateJointMW (fun _ => 2) (JointIdx.numbered 0) 5 1 = (fun _ => (2 : ℚ)) 1 :=
  zero_contamination [(JointIdx.numbered 3, 1)] [] (fun _ => 2)
    (JointIdx.numbered 0) JointIdx.globalJoint 5 1
    (by norm_num [validId]) trivial (by decide)
    (by norm_num [jointSlots, jointBase])

/-- C8 (amended): out-of-range safety without a signal — for every
caller-supplied numbered joint id whose computed slot `base + axis` is
`≥ 156` or `< 0`, both codecs perform no write at all (the pose vector
is returned unchanged in every slot), and the skip is silent: no
`OutOfRangeJoint` or other condition is raised (see the counterexample
for the absence of any signal). -/
theorem out_of_range_no_write (p : Pose) (i : ℤ) (a : ℚ)
    (hW : ¬ (0 ≤ 3 + i * 3 + workerAxisGet i ∧ 3 + i * 3 + workerAxisGet i < 156))
    (hM : ¬ (0 ≤ 3 + i * 3 + JOINT_AXIS_MAP_get i ∧
      3 + i * 3 + JOINT_AXIS_MAP_get i < 156)) :
    writeJointWorker p (JointIdx.numbered i) a = p ∧
    updateJointMW p (JointIdx.numbered i) a = p := by
  constructor
  · simp only [writeJointWorker]
    rw [if_neg hW]
  · simp only [updateJointMW]
    rw [if_neg hM]

/-- Witness for C8 at joint id 51 (`base + axis = 156`), pose all-zero,
angle `1`. -/
theorem out_of_range_no_write_witness :
    writeJointWorker zeroPose (JointIdx.numbered 51) 1 = zeroPose ∧
    updateJointMW zeroPose (JointIdx.numbered 51) 1 = zeroPose :=
  out_of_range_no_write zeroPose 51 1 (by decide) (by decide)

/-- C8 (counterexample): a run whose only joint track is the
out-of-range id 51 emits no `error_signal` at all and terminates with
`finished_signal` — the claim's "signals an OutOfRangeJoint condition"
is false: the skip is completely silent (the worker's only error channel
is `error_signal`, and nothing else in `run` reports the condition);
the would-be target slot 156 of the sole frame also stays `0`. -/
theorem out_of_range_silent_cex :
    ((runWorker 1 Mode.linear 0 0 [⟨JointIdx.numbered 51, 0, 90⟩] ("o") none
        (fun _ => false)).events.all fun ev => !ev.isErrorB) = true ∧
    (runWorker 1 Mode.linear 0 0 [⟨JointIdx.numbered 51, 0, 90⟩] ("o") none
        (fun _ => false)).events.getLast? = some (Event.finished ("o")) ∧
    ((runWorker 1 Mode.linear 0 0 [⟨JointIdx.numbered 51, 0, 90⟩] ("o") none
        (fun _ => false)).frameParams.map fun pr => pr.2 156) = [0] := by
  refine ⟨rfl, rfl, ?_⟩
  simp only [runWorker, Int.toNat_one, List.range_succ, List.range_zero, List.nil_append,
    List.map_cons, List.map_nil, framePose, List.foldl_cons, List.foldl_nil]
  rw [show writeJointWorker zeroPose (JointIdx.numbered 51)
      (computeRad Mode.linear 0 90 (frameT 1 0)) = zeroPose from by
    simp only [writeJointWorker]
    rw [if_neg (by decide)]]
  rfl

/-- C6: smooth-mode degenerate case — for every start `s` and end `e`
with `|e - s| < 0.01` and every `t` in `[0, 1]`,
`smooth_interpolate s e t` returns exactly `s`, independent of `t`. -/
theorem smooth_degenerate_returns_start (s e t : ℚ)
    (h : |e - s| < 1/100) (ht0 : 0 ≤ t) (ht1 : t ≤ 1) :
    smooth_interpolate s e t = s := by
  unfold smooth_interpolate
  rw [if_pos h]

/-- Witness for C6 at `s = 3`, `e = 3 + 1/200`, `t = 1/2`. -/
theorem smooth_degenerate_returns_start_witness :
    |(3 + 1/200 : ℚ) - 3| < 1/100 ∧ (0 : ℚ) ≤ 1/2 ∧ (1/2 : ℚ) ≤ 1 ∧
      smooth_interpolate 3 (3 + 1/200) (1/2) = 3 :=
  ⟨by norm_num [abs_lt], by norm_num, by norm_num,
    smooth_degenerate_returns_start 3 (3 + 1/200) (1/2)
      (by norm_num [abs_lt]) (by norm_num) (by norm_num)⟩

/-- C10: smooth mode is extensionally linear — for every `s`, `e` with
`|e - s| ≥ 0.01` and every `t ∈ [0, 1]`, the smooth interpolant (the
quadratic through `(0, s)`, `(1/2, (s+e)/2)`, `(1, e)`) evaluates to
exactly `s + (e - s) * t`, because the three control points are
collinear. -/
theorem smooth_mode_is_linear (s e t : ℚ)
    (h : 1/100 ≤ |e - s|) (ht0 : 0 ≤ t) (ht1 : t ≤ 1) :
    smooth_interpolate s e t = s + (e - s) * t :=
  smooth_interpolate_of_ge s e t h

/-- Witness for C10 at `s = 0`, `e = 1`, `t = 1/3`. -/
theorem smooth_mode_is_linear_witness :
    (1/100 : ℚ) ≤ |(1 : ℚ) - 0| ∧ (0 : ℚ) ≤ 1/3 ∧ (1/3 : ℚ) ≤ 1 ∧
      smooth_interpolate 0 1 (1/3) = 0 + (1 - 0) * (1/3) :=
  ⟨by rw [abs_of_nonneg] <;> norm_num, by norm_num, by norm_num,
    smooth_mode_is_linear 0 1 (1/3)
      (by rw [abs_of_nonneg] <;> norm_num) (by norm_num) (by norm_num)⟩

/-- C7 (code evaluation): the fixed convention the claim states is
realised by `constants.py`'s `JOINT_AXIS_MAP` (for every integer id and
for the global sentinel), but the inline `axis_map` of
`AnimationWorker.run` contradicts it at joint id 1 (`left_hip`): the
worker maps id 1 to axis 1 (Y) where the claim, `JOINT_AXIS_MAP`, and
the repository's own axis comments in `test.py` say axis 2 (Z). -/
theorem axis_tables_divergence :
    workerAxisGet 1 = 1 ∧ JOINT_AXIS_MAP_get 1 = 2 ∧ claimAxisConvention 1 = 2 ∧
      (∀ i : ℤ, JOINT_AXIS_MAP_get i = claimAxisConvention i) ∧
      JOINT_AXIS_MAP_global = 1 ∧ workerAxisOf JointIdx.globalJoint = 1 := by
  refine ⟨by decide, by decide, by decide, ?_, by decide, by decide⟩
  intro i
  by_cases h : 0 ≤ i ∧ i ≤ 21
  · obtain ⟨h0, h1⟩ := h
    interval_cases i <;> decide
  · rw [Decidable.not_and_iff_or_not, not_le, not_le] at h
    simp only [JOINT_AXIS_MAP_get, claimAxisConvention, show i ≠ 1 from by omega,
      show i ≠ 2 from by omega, show i ≠ 3 from by omega, show i ≠ 4 from by omega,
      show i ≠ 5 from by omega, show i ≠ 6 from by omega, show i ≠ 7 from by omega,
      show i ≠ 8 from by omega, show i ≠ 9 from by omega, show i ≠ 10 from by omega,
      show i ≠ 11 from by omega, show i ≠ 12 from by omega, show i ≠ 13 from by omega,
      show i ≠ 14 from by omega, show i ≠ 15 from by omega, show i ≠ 16 from by omega,
      show i ≠ 17 from by omega, show i ≠ 18 from by omega, show i ≠ 19 from by omega,
      show i ≠ 20 from by omega, show i ≠ 21 from by omega,
      show ¬(16 ≤ i ∧ i ≤ 21) from by omega, if_false, ite_false, or_self, false_or,
      and_false, false_and]

/-- C5 (amended): the interpolation parameter of frame `i` of `N` is
`i / (N - 1)` for `N > 1` and `1.0` for `N = 1`; consequently a
single-frame animation evaluates every interpolant at `t = 1`.  In
linear mode this yields exactly the end value (`shape_end` and every
track's end angle).  In smooth mode the degenerate threshold `0.01` is
applied to the values actually interpolated — the shape endpoints as
given, a track's endpoints after degree→radian conversion — so the
single frame yields `shape_end` when `|shape_end - shape_start| ≥ 0.01`
and a track's end angle (in radians) when
`|end_deg·π/180 - start_deg·π/180| ≥ 0.01`; in the degenerate cases the
start value is rendered instead — see the counterexample. -/
theorem single_frame_uses_t_one (N : ℤ) (i : ℕ) (s e sv ev : ℚ) :
    (1 < N → frameT N i = (i : ℚ) / ((N : ℚ) - 1)) ∧
    (N = 1 → frameT N i = 1) ∧
    computeShape Mode.linear s e (frameT 1 0) = e ∧
    computeRad Mode.linear sv ev (frameT 1 0) = ev * np_pi / 180 ∧
    (1/100 ≤ |e - s| → computeShape Mode.smooth s e (frameT 1 0) = e) ∧
    (1/100 ≤ |ev * np_pi / 180 - sv * np_pi / 180| →
      computeRad Mode.smooth sv ev (frameT 1 0) = ev * np_pi / 180) := by
  have ht1 : frameT 1 0 = 1 := by norm_num [frameT]
  refine ⟨?_, ?_, ?_, ?_, ?_, ?_⟩
  · intro hN
    unfold frameT
    rw [if_pos hN, show max 1 (N - 1) = N - 1 from by omega]
    push_cast
    ring
  · intro hN
    subst hN
    norm_num [frameT]
  · rw [ht1]
    unfold computeShape
    ring
  · rw [ht1]
    unfold computeRad
    ring
  · intro h
    rw [ht1]
    unfold computeShape
    rw [smooth_interpolate_of_ge s e 1 h]
    ring
  · intro h
    rw [ht1]
    unfold computeRad
    rw [smooth_interpolate_of_ge (sv * np_pi / 180) (ev * np_pi / 180) 1 h]
    ring

/-- Witness for C5: the `t`-formula at `N = 3`, `i = 1` and at `N = 1`,
and the four single-frame end-value facts at shape `2 → 7` and track
`10° → 90°`, with every hypothesis discharged concretely. -/
theorem single_frame_uses_t_one_witness :
    frameT 3 1 = (1 : ℚ) / ((3 : ℚ) - 1) ∧
    frameT 1 0 = 1 ∧
    computeShape Mode.linear 2 7 (frameT 1 0) = 7 ∧
    computeRad Mode.linear 10 90 (frameT 1 0) = 90 * np_pi / 180 ∧
    computeShape Mode.smooth 2 7 (frameT 1 0) = 7 ∧
    computeRad Mode.smooth 10 90 (frameT 1 0) = 90 * np_pi / 180 :=
  ⟨(single_frame_uses_t_one 3 1 2 7 10 90).1 (by norm_num),
   (single_frame_uses_t_one 1 0 2 7 10 90).2.1 rfl,
   (single_frame_uses_t_one 1 0 2 7 10 90).2.2.1,
   (single_frame_uses_t_one 1 0 2 7 10 90).2.2.2.1,
   (single_frame_uses_t_one 1 0 2 7 10 90).2.2.2.2.1
     (by rw [abs_of_nonneg] <;> norm_num),
   (single_frame_uses_t_one 1 0 2 7 10 90).2.2.2.2.2
     (by rw [abs_of_nonneg] <;> norm_num [np_pi])⟩

/-- C5 (counterexample): two single-frame smooth runs that do not render
the end pose.  Shape endpoints `0 → 0.005` (`|e - s| < 0.01`): the sole
frame's shape value is `0`, the start value, not `0.005`.  And a joint
track `0° → 0.5°`, whose degree gap `0.5` is well above `0.01`, still
renders the start angle, because the code converts to radians before
interpolating and `0.5·π/180 ≈ 0.0087 < 0.01` triggers the degenerate
branch — so "renders exactly the end pose (shape_end and every track's
end angle)" is false as claimed. -/
theorem single_frame_end_pose_cex :
    (runWorker 1 Mode.smooth 0 (1/200) [] ("o") none (fun _ => false)).frameParams.map
        Prod.fst = [0] ∧
    (0 : ℚ) ≠ 1/200 ∧
    computeRad Mode.smooth 0 (1/2) (frameT 1 0) = 0 ∧
    (0 : ℚ) ≠ (1/2) * np_pi / 180 := by
  refine ⟨?_, by norm_num, ?_, by norm_num [np_pi]⟩
  · norm_num [runWorker, List.range_succ, computeShape, smooth_interpolate, frameT, abs_lt]
  · norm_num [computeRad, smooth_interpolate, frameT, abs_lt, np_pi]

/-- C3 (amended): per-frame render exceptions are swallowed — an
exception raised during any frame's image production is caught inside
`_render_frame` and only logged: the emitted signal stream is exactly
the same as in a fully successful run, contains no `error_signal`, and
still terminates with `finished_signal`; every frame is attempted, and
exactly the non-raising frames produce image files.  Only an exception
escaping to `run`'s own `try` (directory creation) aborts the run, as a
single terminal `error_signal` with no completion signal. -/
theorem render_failure_swallowed (N : ℤ) (mode : Mode) (s e : ℚ)
    (tracks : List JointTrack) (out : String) (oracle : ℕ → Bool) :
    (runWorker N mode s e tracks out none oracle).events
        = (runWorker N mode s e tracks out none fun _ => false).events ∧
    ((runWorker N mode s e tracks out none oracle).events.all fun ev => !ev.isErrorB)
        = true ∧
    (runWorker N mode s e tracks out none oracle).events.getLast?
        = some (Event.finished out) ∧
    (runWorker N mode s e tracks out none oracle).written
        = (List.range N.toNat).filter (fun i => !oracle i) ∧
    ∀ msg : String, (runWorker N mode s e tracks out (some msg) oracle).events
        = [Event.errorSignal ("渲染失败: " ++ msg)] := by
  refine ⟨rfl, ?_, ?_, rfl, fun msg => rfl⟩
  · simp only [runWorker, List.all_cons, List.all_append, List.all_map, List.all_eq_true]
    simp [Event.isErrorB]
  · rw [workerEvents_decomp, List.getLast?_concat]

/-- C3 (counterexample): with two frames and an exception in frame 0's
image production, the run does not transition to `FAILED`: frame 1 (a
frame after the failed one) is still rendered and written, the
completion signal fires, and no error signal is emitted — refuting the
claimed abort-on-first-failure semantics. -/
theorem render_failure_not_fatal_cex :
    (runWorker 2 Mode.linear 0 1 [] ("o") none (fun i => i == 0)).written = [1] ∧
    (runWorker 2 Mode.linear 0 1 [] ("o") none (fun i => i == 0)).events.getLast?
        = some (Event.finished ("o")) ∧
    ((runWorker 2 Mode.linear 0 1 [] ("o") none (fun i => i == 0)).events.all
        fun ev => !ev.isErrorB) = true :=
  ⟨rfl, rfl, rfl⟩

/-- C4: for every run with `frame_count = N ≥ 1`, the emitted progress
percentages are monotonically non-decreasing, the final percentage is
exactly `100`, emitted exactly once and at the end, and that final
`progress_update` is immediately followed by the terminal
`finished_signal`. -/
theorem progress_monotone_final (N : ℤ) (hN : 1 ≤ N) (mode : Mode) (s e : ℚ)
    (tracks : List JointTrack) (out : String) (oracle : ℕ → Bool) :
    List.Chain' (· ≤ ·)
        (progressPcts (runWorker N mode s e tracks out none oracle).events) ∧
    (progressPcts (runWorker N mode s e tracks out none oracle).events).count 100 = 1 ∧
    (progressPcts (runWorker N mode s e tracks out none oracle).events).getLast?
        = some 100 ∧
    (runWorker N mode s e tracks out none oracle).events.getLast?
        = some (Event.finished out) ∧
    (runWorker N mode s e tracks out none oracle).events.dropLast.getLast?
        = some (Event.progress 100 ("完成!")) := by
  have hpcts := progressPcts_run N mode s e tracks out oracle
  obtain ⟨n, hn⟩ : ∃ n, N.toNat = n + 1 := ⟨N.toNat - 1, by omega⟩
  have hlt : ∀ x ∈ (List.range N.toNat).map (workerProgress N), x < 100 := by
    intro x hx
    obtain ⟨i, hi, rfl⟩ := List.mem_map.mp hx
    have hiN : (i : ℤ) < N := by
      have := List.mem_range.mp hi
      omega
    exact workerProgress_lt N hN i hiN
  refine ⟨?_, ?_, ?_, ?_, ?_⟩
  · rw [hpcts, show (0 : ℤ) :: (List.range N.toNat).map (workerProgress N) ++ [100]
        = ((0 : ℤ) :: (List.range N.toNat).map (workerProgress N)) ++ [100] from rfl]
    apply List.Chain'.append
    · rw [List.chain'_cons']
      constructor
      · intro y hy
        obtain ⟨i, hi, rfl⟩ :=
          List.mem_map.mp (List.mem_of_mem_head? hy)
        exact workerProgress_nonneg N hN i
      · rw [List.chain'_map, hn, List.chain'_range_succ]
        intro m hm
        exact workerProgress_mono N hN m
    · exact List.chain'_singleton 100
    · intro x hx y hy
      simp only [List.head?_cons, Option.mem_def, Option.some.injEq] at hy
      subst hy
      rcases List.mem_cons.mp (mem_of_mem_getLastQ hx) with rfl | hxm
      · norm_num
      · exact le_of_lt (hlt x hxm)
  · rw [hpcts]
    have hz : ((List.range N.toNat).map (workerProgress N)).count 100 = 0 := by
      rw [List.count_eq_zero]
      intro hmem
      exact absurd rfl (ne_of_lt (hlt 100 hmem))
    simp [List.count_append, List.count_cons, hz]
  · rw [hpcts, List.getLast?_concat]
  · rw [workerEvents_decomp, List.getLast?_concat]
  · rw [workerEvents_decomp, List.dropLast_concat, List.getLast?_concat]

/-- Witness for C4 at `N = 2`. -/
theorem progress_monotone_final_witness :
    List.Chain' (· ≤ ·)
        (progressPcts (runWorker 2 Mode.linear 0 1 [] ("w") none fun _ => false).events) ∧
    (progressPcts
        (runWorker 2 Mode.linear 0 1 [] ("w") none fun _ => false).events).count 100 = 1 ∧
    (progressPcts
        (runWorker 2 Mode.linear 0 1 [] ("w") none fun _ => false).events).getLast?
        = some 100 ∧
    (runWorker 2 Mode.linear 0 1 [] ("w") none fun _ => false).events.getLast?
        = some (Event.finished ("w")) ∧
    (runWorker 2 Mode.linear 0 1 [] ("w") none fun _ => false).events.dropLast.getLast?
        = some (Event.progress 100 ("完成!")) :=
  progress_monotone_final 2 (by norm_num) Mode.linear 0 1 [] ("w") (fun _ => false)

/-- C9: an animation request with `frame_count < 1` is rejected by the
validation step of `_generate_animation` (the `InvalidFrameCount`
warning `"帧数必须大于0!"`) before the worker is created: no frame is
rendered, no progress beyond the UI's own status text is reported, and
no run exists that could terminate as a success. -/
theorem invalid_frame_count_rejected (outText : String) (frames : ℤ) (s e : ℚ)
    (tracks : List JointTrack) (confirm : Bool) (mode : Mode)
    (mkdirErr : Option String) (renderRaises : ℕ → Bool)
    (hf : frames < 1) :
    generate_animation true outText frames s e tracks confirm mode mkdirErr renderRaises
      = GenResult.warnFrameCount := by
  simp only [generate_animation, Bool.true_eq_false, if_false]
  rw [if_pos hf]

/-- Witness for C9 at `frames = 0`. -/
theorem invalid_frame_count_rejected_witness :
    generate_animation true ("") 0 0 5 [] false Mode.linear none (fun _ => false)
      = GenResult.warnFrameCount :=
  invalid_frame_count_rejected ("") 0 0 5 [] false Mode.linear none (fun _ => false)
    (by norm_num)

end SMPLX
